import Mathlib

/-!
Verification development for a Monte Carlo stock-price simulator.

The repository holds two near-duplicate scripts:
* `monte_carlo_engine.py` — fixed module-level parameters, then a vectorized
  GBM path construction and statistics;
* `monte_carlo_v2.py` — the same path construction inside `run_simulation()`,
  with interactive parameter acquisition and a `VaR = S0 - cutoff` report.

We embed both shallowly: real-valued arithmetic becomes exact arithmetic over
`ℝ` (prices, log-returns) and `ℚ` (the analyzer, which we keep decidable);
the matrix of standard-normal draws `Z` is an explicit argument `ℕ → ℕ → ℝ`;
the interactive front-end's control flow becomes a total function from parse
results to an outcome tag.
-/

namespace MonteCarlo

/-! ## Path construction, transcribed from the engine section of
`monte_carlo_v2.py` (lines 28–39).  `dt` is passed in; the caller computes
`dt = T / days`. -/

/-- `drift_daily = (mu - 0.5 * sigma**2) * dt` from `monte_carlo_v2.py`. -/
noncomputable def drift_daily (mu sigma dt : ℝ) : ℝ :=
  (mu - 0.5 * sigma ^ 2) * dt

/-- `shock_daily = sigma * np.sqrt(dt) * Z` from `monte_carlo_v2.py`;
entrywise over the draw matrix `Z`. -/
noncomputable def shock_daily (sigma dt : ℝ) (Z : ℕ → ℕ → ℝ) (t p : ℕ) : ℝ :=
  sigma * Real.sqrt dt * Z t p

/-- `daily_log_returns = drift_daily + shock_daily` from `monte_carlo_v2.py`. -/
noncomputable def daily_log_returns (mu sigma dt : ℝ) (Z : ℕ → ℕ → ℝ) (t p : ℕ) : ℝ :=
  drift_daily mu sigma dt + shock_daily sigma dt Z t p

/-- `cum_returns = np.cumsum(daily_log_returns, axis=0)`: the left-to-right
running sum down each column (path) of the log-return matrix. -/
noncomputable def cum_returns (mu sigma dt : ℝ) (Z : ℕ → ℕ → ℝ) : ℕ → ℕ → ℝ
  | 0, p => daily_log_returns mu sigma dt Z 0 p
  | t + 1, p => cum_returns mu sigma dt Z t p + daily_log_returns mu sigma dt Z (t + 1) p

/-- `stock_paths = S0 * np.exp(cum_returns)` followed by
`np.vstack([S0_row, stock_paths])` from `monte_carlo_v2.py`: a
`(days+1) × sims` matrix as a list of rows, row 0 being the constant `S0`
row and row `t+1` holding `S0 * exp(cum_returns[t][p])` for each path `p`. -/
noncomputable def stock_paths (S0 mu sigma dt : ℝ) (days sims : ℕ)
    (Z : ℕ → ℕ → ℝ) : List (List ℝ) :=
  List.replicate sims S0 ::
    (List.range days).map (fun t =>
      (List.range sims).map (fun p =>
        S0 * Real.exp (cum_returns mu sigma dt Z t p)))

/-- The full engine section of `monte_carlo_v2.py` as a function of the parsed
parameters and the step count: it computes `dt = T / days` and builds the
price matrix. -/
noncomputable def v2_path_matrix (S0 mu sigma T : ℝ) (days sims : ℕ)
    (Z : ℕ → ℕ → ℝ) : List (List ℝ) :=
  stock_paths S0 mu sigma (T / (days : ℝ)) days sims Z

/-! ## Path construction, transcribed independently from
`monte_carlo_engine.py` (lines 21–44).  The script fixes
`S0 = 100, mu = 0.10, sigma = 0.20, T = 1.0, days = 252, sims = 1000`
at module scope; the construction itself is parameterized here so the two
variants can be compared at equal inputs. -/

/-- `daily_log_returns = drift_daily + shock_daily` from
`monte_carlo_engine.py`, with `drift_daily = (mu - 0.5 * sigma**2) * dt` and
`shock_daily = sigma * np.sqrt(dt) * Z`. -/
noncomputable def engine_daily_log_returns (mu sigma dt : ℝ) (Z : ℕ → ℕ → ℝ)
    (t p : ℕ) : ℝ :=
  (mu - 0.5 * sigma ^ 2) * dt + sigma * Real.sqrt dt * Z t p

/-- `cum_returns = np.cumsum(daily_log_returns, axis=0)` from
`monte_carlo_engine.py`. -/
noncomputable def engine_cum_returns (mu sigma dt : ℝ) (Z : ℕ → ℕ → ℝ) : ℕ → ℕ → ℝ
  | 0, p => engine_daily_log_returns mu sigma dt Z 0 p
  | t + 1, p =>
      engine_cum_returns mu sigma dt Z t p + engine_daily_log_returns mu sigma dt Z (t + 1) p

/-- `stock_paths = S0 * np.exp(cum_returns)` then
`np.vstack([S0_row, stock_paths])` from `monte_carlo_engine.py`, with
`dt = T / days` computed at module scope. -/
noncomputable def engine_stock_paths (S0 mu sigma T : ℝ) (days sims : ℕ)
    (Z : ℕ → ℕ → ℝ) : List (List ℝ) :=
  List.replicate sims S0 ::
    (List.range days).map (fun t =>
      (List.range sims).map (fun p =>
        S0 * Real.exp (engine_cum_returns mu sigma (T / (days : ℝ)) Z t p)))

/-! ## The Risk Analyzer: `np.percentile(..., q)` with its default linear
interpolation method, and the two VaR definitions of the two scripts.
Kept over `ℚ` so concrete instances are decidable. -/

/-- Ascending sort, modelling the sort `np.percentile` performs on its data;
`List.insertionSort` with `≤` is extensionally the ascending sort of the
multiset. -/
def sortAsc (l : List ℚ) : List ℚ :=
  List.insertionSort (· ≤ ·) l

/-- `np.percentile(data, c)` with the default linear interpolation method:
sort ascending, take rank `r = (c/100) * (n-1)`, and interpolate between the
order statistics at `⌊r⌋` and `⌈r⌉`. -/
def percentile (l : List ℚ) (c : ℚ) : ℚ :=
  let s := sortAsc l
  let r := c / 100 * ((l.length : ℚ) - 1)
  let lo := s.getD (⌊r⌋).toNat 0
  let hi := s.getD (⌈r⌉).toNat 0
  lo + (r - (⌊r⌋ : ℚ)) * (hi - lo)

/-- `cutoff_price = np.percentile(final_prices, 5)` from `monte_carlo_v2.py`. -/
def cutoff_price (final : List ℚ) : ℚ :=
  percentile final 5

/-- `VaR = S0 - cutoff_price` from `monte_carlo_v2.py`. -/
def VaR (S0 : ℚ) (final : List ℚ) : ℚ :=
  S0 - cutoff_price final

/-- `VaR_95 = np.percentile(future_prices, 5)` from `monte_carlo_engine.py`:
the first variant reports the absolute price percentile itself. -/
def VaR_95 (final : List ℚ) : ℚ :=
  percentile final 5

/-! ## Control flow of `run_simulation()` in `monte_carlo_v2.py`.

The function reads five values (price, drift, volatility, horizon, path
count) in order inside one `try` block; the first `ValueError` prints
`Error: Please enter numbers only.` and returns normally.  It then computes
`days = int(T * 252)` and `dt = T / days` — with no validation of any
parameter — and runs the engine and the report.  We model each read as an
`Option` (`none` = non-numeric token), and tag the terminal state the run
reaches.  Python's `int()` on a float truncates toward zero. -/

/-- Python `int()` applied to a real (here exact rational) value: truncation
toward zero. -/
def pyInt (q : ℚ) : ℤ :=
  if 0 ≤ q then ⌊q⌋ else ⌈q⌉

/-- `days = int(T * 252)` from `monte_carlo_v2.py`. -/
def v2_days (T : ℚ) : ℤ :=
  pyInt (T * 252)

/-- The terminal state a run of `run_simulation()` reaches. -/
inductive Outcome where
  /-- A `ValueError` raised by `float()`/`int()` parsing is caught; the
  function prints an error message and returns normally. -/
  | parseFailure : Outcome
  /-- `dt = T / days` raises an uncaught `ZeroDivisionError` when `days = 0`. -/
  | zeroDivisionError : Outcome
  /-- `np.zeros` / `np.random.normal` raise an uncaught error on a negative
  dimension (`days < 0` or `sims < 0`). -/
  | invalidDimensionError : Outcome
  /-- `np.percentile` raises an uncaught error on the empty final-price row
  (`sims = 0`). -/
  | emptyDataError : Outcome
  /-- The simulation, analysis and report all run; the function returns
  normally. -/
  | completedRun : Outcome
deriving DecidableEq

/-- The control flow of `run_simulation()`: `S0q, muq, sigmaq, Tq` are the
four `float(input(...))` reads and `simsq` the `int(input(...))` read, each
`none` when the token is non-numeric.  Parsing is sequential; the first
failure aborts the whole run with no retry. -/
def run_simulation (S0q muq sigmaq Tq : Option ℚ) (simsq : Option ℤ) : Outcome :=
  match S0q, muq, sigmaq, Tq, simsq with
  | some _, some _, some _, some T, some sims =>
      let days := v2_days T
      if days = 0 then .zeroDivisionError
      else if days < 0 ∨ sims < 0 then .invalidDimensionError
      else if sims = 0 then .emptyDataError
      else .completedRun
  | _, _, _, _, _ => .parseFailure

/-- Whether the run prints the `Error: Please enter numbers only.` message
(it does exactly on the caught parse failure). -/
def printsParseErrorMessage : Outcome → Bool
  | .parseFailure => true
  | _ => false

/-- The process exit status of `python monte_carlo_v2.py` for each terminal
state: a caught parse failure returns normally from `run_simulation` (status
0), an uncaught exception terminates the interpreter with status 1, and a
completed run exits normally. -/
def exitStatus : Outcome → ℕ
  | .parseFailure => 0
  | .zeroDivisionError => 1
  | .invalidDimensionError => 1
  | .emptyDataError => 1
  | .completedRun => 0

/-! ## Helper lemmas -/

/-- Indexing a mapped `List.range` with a default: below the length it is just
the function value. -/
lemma map_range_getD {α : Type} (f : ℕ → α) (n t : ℕ) (d : α) (h : t < n) :
    ((List.range n).map f).getD t d = f t := by
  have hlen : t < ((List.range n).map f).length := by simpa using h
  rw [List.getD_eq_getElem _ _ hlen, List.getElem_map, List.getElem_range]

/-- `np.cumsum` down a column is the partial sum of the log-returns of that
path, steps `0..t` inclusive. -/
lemma cum_returns_eq_sum (mu sigma dt : ℝ) (Z : ℕ → ℕ → ℝ) (t p : ℕ) :
    cum_returns mu sigma dt Z t p =
      ∑ i ∈ Finset.range (t + 1), daily_log_returns mu sigma dt Z i p := by
  induction t with
  | zero => rw [Finset.sum_range_one]; rfl
  | succ t ih => rw [Finset.sum_range_succ, cum_returns, ih]

/-- The two transcriptions accumulate identically. -/
lemma engine_cum_returns_eq (mu sigma dt : ℝ) (Z : ℕ → ℕ → ℝ) (t p : ℕ) :
    engine_cum_returns mu sigma dt Z t p = cum_returns mu sigma dt Z t p := by
  induction t with
  | zero => rfl
  | succ t ih => rw [engine_cum_returns, cum_returns, ih]; rfl

/-! ## Claim theorems: the Path Generator -/

/-- C1: for validated parameters and any draw matrix `Z`, the per-step
log-return is `(mu - 0.5 * sigma^2) * dt + sigma * sqrt(dt) * Z[t][p]` with
`dt = T / days`, and the price at step `t+1` of path `p` equals
`S0 * exp(sum of the log-returns of path p over steps 0..t inclusive)`. -/
theorem v2_log_return_and_price_formula
    (S0 mu sigma T : ℝ) (days sims : ℕ) (Z : ℕ → ℕ → ℝ)
    (hS0 : 0 < S0) (hsigma : 0 ≤ sigma) (hT : 0 < T)
    (hdays : 1 ≤ days) (hsims : 1 ≤ sims)
    (t p : ℕ) (ht : t < days) (hp : p < sims) :
    daily_log_returns mu sigma (T / (days : ℝ)) Z t p
        = (mu - 0.5 * sigma ^ 2) * (T / (days : ℝ))
            + sigma * Real.sqrt (T / (days : ℝ)) * Z t p ∧
      ((v2_path_matrix S0 mu sigma T days sims Z).getD (t + 1) []).getD p 0
        = S0 * Real.exp (∑ i ∈ Finset.range (t + 1),
            daily_log_returns mu sigma (T / (days : ℝ)) Z i p) := by
  constructor
  · rfl
  · show (((List.range days).map _).getD t []).getD p 0 = _
    rw [map_range_getD _ _ _ _ ht, map_range_getD _ _ _ _ hp, cum_returns_eq_sum]

/-- Witness for C1 at `S0 = 100, mu = 1/10, sigma = 1/5, T = 1, days = 252,
sims = 1000, Z ≡ 0, t = 0, p = 0`. -/
theorem v2_log_return_and_price_formula_witness :
    daily_log_returns (1/10) (1/5) ((1 : ℝ) / ((252 : ℕ) : ℝ)) (fun _ _ => 0) 0 0
        = ((1 : ℝ)/10 - 0.5 * (1/5) ^ 2) * ((1 : ℝ) / ((252 : ℕ) : ℝ))
            + (1/5) * Real.sqrt ((1 : ℝ) / ((252 : ℕ) : ℝ)) * 0 ∧
      ((v2_path_matrix 100 (1/10) (1/5) 1 252 1000 (fun _ _ => 0)).getD 1 []).getD 0 0
        = 100 * Real.exp (∑ i ∈ Finset.range 1,
            daily_log_returns (1/10) (1/5) ((1 : ℝ) / ((252 : ℕ) : ℝ)) (fun _ _ => 0) i 0) :=
  v2_log_return_and_price_formula 100 (1/10) (1/5) 1 252 1000 (fun _ _ => 0)
    (by norm_num) (by norm_num) (by norm_num) (by norm_num) (by norm_num)
    0 0 (by norm_num) (by norm_num)

/-- C2: for valid parameters the price matrix has `days + 1` rows and `sims`
columns, and row 0 is the constant `S0` row, placed there by the `vstack`
construction. -/
theorem v2_matrix_shape
    (S0 mu sigma T : ℝ) (days sims : ℕ) (Z : ℕ → ℕ → ℝ)
    (hS0 : 0 < S0) (hsigma : 0 ≤ sigma) (hT : 0 < T)
    (hdays : 1 ≤ days) (hsims : 1 ≤ sims) :
    (v2_path_matrix S0 mu sigma T days sims Z).length = days + 1 ∧
      (∀ row ∈ v2_path_matrix S0 mu sigma T days sims Z, row.length = sims) ∧
      (v2_path_matrix S0 mu sigma T days sims Z).getD 0 [] = List.replicate sims S0 := by
  refine ⟨by simp [v2_path_matrix, stock_paths], ?_, rfl⟩
  intro row hrow
  simp only [v2_path_matrix, stock_paths, List.mem_cons, List.mem_map,
    List.mem_range] at hrow
  rcases hrow with rfl | ⟨i, _, rfl⟩
  · exact List.length_replicate sims S0
  · simp

/-- Witness for C2 at `S0 = 100, mu = 1/10, sigma = 1/5, T = 1, days = 252,
sims = 1000`. -/
theorem v2_matrix_shape_witness :
    (v2_path_matrix 100 (1/10) (1/5) 1 252 1000 (fun _ _ => 0)).length = 252 + 1 ∧
      (∀ row ∈ v2_path_matrix (100 : ℝ) (1/10) (1/5) 1 252 1000 (fun _ _ => 0),
        row.length = 1000) ∧
      (v2_path_matrix 100 (1/10) (1/5) 1 252 1000 (fun _ _ => 0)).getD 0 []
        = List.replicate 1000 (100 : ℝ) :=
  v2_matrix_shape 100 (1/10) (1/5) 1 252 1000 (fun _ _ => 0)
    (by norm_num) (by norm_num) (by norm_num) (by norm_num) (by norm_num)

/-- C3: with a positive initial price, every entry of the generated price
matrix is strictly positive, whatever the real-valued draws are. -/
theorem v2_matrix_entries_pos
    (S0 mu sigma T : ℝ) (days sims : ℕ) (Z : ℕ → ℕ → ℝ) (hS0 : 0 < S0) :
    ∀ row ∈ v2_path_matrix S0 mu sigma T days sims Z, ∀ x ∈ row, 0 < x := by
  intro row hrow x hx
  simp only [v2_path_matrix, stock_paths, List.mem_cons, List.mem_map,
    List.mem_range] at hrow
  rcases hrow with rfl | ⟨i, _, rfl⟩
  · rw [List.eq_of_mem_replicate hx]
    exact hS0
  · simp only [List.mem_map, List.mem_range] at hx
    rcases hx with ⟨p, _, rfl⟩
    exact mul_pos hS0 (Real.exp_pos _)

/-- Witness for C3 at `S0 = 100`, one step, one path, draws `≡ -3`,
instantiated at the `S0` entry of row 0. -/
theorem v2_matrix_entries_pos_witness : (0 : ℝ) < 100 :=
  v2_matrix_entries_pos 100 (1/10) (1/5) 1 1 1 (fun _ _ => -3) (by norm_num)
    (List.replicate 1 (100 : ℝ)) (List.mem_cons_self _ _) 100 (by simp)

/-- C6: with zero volatility and a zero-returning draw source, the price at
every step `t ≤ days` of every path is exactly `S0 * exp(mu * t * dt)`. -/
theorem v2_zero_volatility_deterministic
    (S0 mu T : ℝ) (days sims : ℕ)
    (hdays : 1 ≤ days) (hsims : 1 ≤ sims)
    (t p : ℕ) (ht : t ≤ days) (hp : p < sims) :
    ((v2_path_matrix S0 mu 0 T days sims (fun _ _ => 0)).getD t []).getD p 0
      = S0 * Real.exp (mu * (t : ℝ) * (T / (days : ℝ))) := by
  cases t with
  | zero =>
      show (List.replicate sims S0).getD p 0 = _
      rw [List.getD_eq_getElem _ _ (by simpa using hp)]
      simp
  | succ t =>
      show (((List.range days).map _).getD t []).getD p 0 = _
      rw [map_range_getD _ _ _ _ (by omega), map_range_getD _ _ _ _ hp,
        cum_returns_eq_sum]
      have hconst : ∀ i, daily_log_returns mu 0 (T / (days : ℝ)) (fun _ _ => 0) i p
          = mu * (T / (days : ℝ)) := by
        intro i
        simp [daily_log_returns, drift_daily, shock_daily]
      have hsum : ∑ i ∈ Finset.range (t + 1),
          daily_log_returns mu 0 (T / (days : ℝ)) (fun _ _ => 0) i p
          = ((t + 1 : ℕ) : ℝ) * (mu * (T / (days : ℝ))) := by
        rw [Finset.sum_congr rfl fun i _ => hconst i, Finset.sum_const,
          Finset.card_range, nsmul_eq_mul]
      rw [hsum]
      congr 2
      push_cast
      ring

/-- Witness for C6 at `S0 = 100, mu = 1/10, T = 1, days = 252, sims = 1000,
t = 7, p = 3`. -/
theorem v2_zero_volatility_deterministic_witness :
    ((v2_path_matrix 100 (1/10) 0 1 252 1000 (fun _ _ => 0)).getD 7 []).getD 0 0
      = 100 * Real.exp ((1/10) * ((7 : ℕ) : ℝ) * ((1 : ℝ) / ((252 : ℕ) : ℝ))) :=
  v2_zero_volatility_deterministic 100 (1/10) 1 252 1000
    (by norm_num) (by norm_num) 7 0 (by norm_num) (by norm_num)

/-- C10: given the same parameters, the same step count and the same draw
matrix, the path construction transcribed from `monte_carlo_engine.py` and
the one transcribed from the engine section of `monte_carlo_v2.py` produce
identical price matrices. -/
theorem engine_v2_path_equivalence
    (S0 mu sigma T : ℝ) (days sims : ℕ) (Z : ℕ → ℕ → ℝ) :
    engine_stock_paths S0 mu sigma T days sims Z
      = v2_path_matrix S0 mu sigma T days sims Z := by
  unfold engine_stock_paths v2_path_matrix stock_paths
  refine congrArg _ (List.map_congr_left fun t _ => List.map_congr_left fun p _ => ?_)
  rw [engine_cum_returns_eq]

/-! ## Claim theorems: the Risk Analyzer -/

/-- C7: for a non-empty set and a confidence level in `(0, 100)`, the
percentile is linear interpolation between order statistics of the ascending
sort (a sorted permutation of the data): with rank
`r = (c/100) * (n - 1)`, the result is
`sorted[⌊r⌋] + (r - ⌊r⌋) * (sorted[⌈r⌉] - sorted[⌊r⌋])`; on
`[10, 20, 30, 40, 50]` the 50th percentile is 30 and the 25th is 20. -/
theorem percentile_linear_method (l : List ℚ) (c : ℚ)
    (hne : l ≠ []) (hc0 : 0 < c) (hc1 : c < 100) :
    (sortAsc l).Perm l ∧ (sortAsc l).Sorted (· ≤ ·) ∧
      percentile l c
        = (sortAsc l).getD (⌊c / 100 * ((l.length : ℚ) - 1)⌋).toNat 0
            + (c / 100 * ((l.length : ℚ) - 1)
                - ((⌊c / 100 * ((l.length : ℚ) - 1)⌋ : ℤ) : ℚ))
              * ((sortAsc l).getD (⌈c / 100 * ((l.length : ℚ) - 1)⌉).toNat 0
                  - (sortAsc l).getD (⌊c / 100 * ((l.length : ℚ) - 1)⌋).toNat 0) ∧
      percentile [10, 20, 30, 40, 50] 50 = 30 ∧
      percentile [10, 20, 30, 40, 50] 25 = 20 := by
  refine ⟨List.perm_insertionSort _ l, List.sorted_insertionSort _ l, rfl, ?_, ?_⟩
  · norm_num [percentile, sortAsc, List.insertionSort, List.orderedInsert, List.getD,
      Int.toNat_ofNat, List.getElem_cons_succ, List.getElem_cons_zero]
    rfl
  · norm_num [percentile, sortAsc, List.insertionSort, List.orderedInsert, List.getD]

/-- Witness for C7 at the five-element set of the spec and `c = 50`. -/
theorem percentile_linear_method_witness :
    (sortAsc [10, 20, 30, 40, 50]).Perm [10, 20, 30, 40, 50] ∧
      (sortAsc [10, 20, 30, 40, 50]).Sorted (· ≤ ·) ∧
      percentile [10, 20, 30, 40, 50] 50
        = (sortAsc [10, 20, 30, 40, 50]).getD
            (⌊(50 : ℚ) / 100 * ((([10, 20, 30, 40, 50] : List ℚ).length : ℚ) - 1)⌋).toNat 0
            + ((50 : ℚ) / 100 * ((([10, 20, 30, 40, 50] : List ℚ).length : ℚ) - 1)
                - ((⌊(50 : ℚ) / 100 * ((([10, 20, 30, 40, 50] : List ℚ).length : ℚ) - 1)⌋ : ℤ) : ℚ))
              * ((sortAsc [10, 20, 30, 40, 50]).getD
                  (⌈(50 : ℚ) / 100 * ((([10, 20, 30, 40, 50] : List ℚ).length : ℚ) - 1)⌉).toNat 0
                  - (sortAsc [10, 20, 30, 40, 50]).getD
                      (⌊(50 : ℚ) / 100 * ((([10, 20, 30, 40, 50] : List ℚ).length : ℚ) - 1)⌋).toNat 0) ∧
      percentile [10, 20, 30, 40, 50] 50 = 30 ∧
      percentile [10, 20, 30, 40, 50] 25 = 20 :=
  percentile_linear_method [10, 20, 30, 40, 50] 50
    (by simp) (by norm_num) (by norm_num)

/-- C8: the reported `VaR` is `S0 - cutoff_price` where `cutoff_price` is the
5th percentile of the final prices, and it is negative when the percentile
floor exceeds the initial price: a 5th percentile of 90 under `S0 = 100`
gives `VaR = 10`, a 5th percentile of 110 gives `VaR = -10 < 0`, still a
returned value of the same computation. -/
theorem VaR_definition_and_sign (S0 : ℚ) (final : List ℚ) :
    VaR S0 final = S0 - cutoff_price final ∧
      cutoff_price [90] = 90 ∧ VaR 100 [90] = 10 ∧
      cutoff_price [110] = 110 ∧ VaR 100 [110] = -10 ∧ VaR 100 [110] < 0 := by
  refine ⟨rfl, ?_, ?_, ?_, ?_, ?_⟩ <;>
    norm_num [VaR, cutoff_price, percentile, sortAsc, List.insertionSort,
      List.orderedInsert, List.getD]

/-! ## Claim theorems: validation and control flow -/

/-- C4 counterexample: `annualVolatility = -0.1` (with otherwise ordinary
parameters) is not rejected — `run_simulation` performs the whole simulation
and report and returns normally; no `InvalidParameter` failure exists in the
code. -/
theorem volatility_not_validated :
    run_simulation (some 100) (some (1/10)) (some (-1/10)) (some 1) (some 1000)
        = Outcome.completedRun ∧
      exitStatus (run_simulation (some 100) (some (1/10)) (some (-1/10)) (some 1)
        (some 1000)) = 0 := by
  constructor <;> norm_num [run_simulation, v2_days, pyInt, exitStatus]

/-- C4 amended: the code performs no parameter validation at all.
`initialPrice = 0` and `annualVolatility = -0.1` are accepted and the run
completes normally; `horizonYears = 0` aborts only through an uncaught
`ZeroDivisionError` at `dt = T / days`; `pathCount = 0` runs the whole
simulation and aborts only inside the percentile computation on the empty
final row. -/
theorem no_parameter_validation :
    run_simulation (some 0) (some (1/10)) (some (1/5)) (some 1) (some 1000)
        = Outcome.completedRun ∧
      run_simulation (some 100) (some (1/10)) (some (-1/10)) (some 1) (some 1000)
        = Outcome.completedRun ∧
      run_simulation (some 100) (some (1/10)) (some (1/5)) (some 0) (some 1000)
        = Outcome.zeroDivisionError ∧
      run_simulation (some 100) (some (1/10)) (some (1/5)) (some 1) (some 0)
        = Outcome.emptyDataError := by
  refine ⟨?_, ?_, ?_, ?_⟩ <;> norm_num [run_simulation, v2_days, pyInt]

/-- C5 counterexample: at `horizonYears = 0.9` the code computes
`days = int(0.9 * 252) = 226`, truncating, while rounding would give 227. -/
theorem steps_not_rounded :
    v2_days (9/10) = 226 ∧ round ((9/10 : ℚ) * 252) = 227 := by
  constructor
  · norm_num [v2_days, pyInt]
  · norm_num [round_eq]

/-- C5 amended: the step count is `int(horizonYears * 252)`, truncation
toward zero — the floor for non-negative horizons — not rounding; and when it
is 0 the run is aborted by the uncaught `ZeroDivisionError` that
`dt = T / days` raises, not by any parameter validation. -/
theorem steps_truncation_and_zero_steps (T : ℚ) (hT : 0 ≤ T)
    (S0 mu sigma : ℚ) (sims : ℤ) (h0 : v2_days T = 0) :
    v2_days T = ⌊T * 252⌋ ∧
      run_simulation (some S0) (some mu) (some sigma) (some T) (some sims)
        = Outcome.zeroDivisionError := by
  constructor
  · rw [v2_days, pyInt, if_pos (by positivity)]
  · simp [run_simulation, h0]

/-- Witness for C5 amended at `T = 1/300` (so `days = int(252/300) = 0`). -/
theorem steps_truncation_and_zero_steps_witness :
    v2_days (1/300) = ⌊(1/300 : ℚ) * 252⌋ ∧
      run_simulation (some 100) (some (1/10)) (some (1/5)) (some (1/300)) (some 1000)
        = Outcome.zeroDivisionError :=
  steps_truncation_and_zero_steps (1/300) (by norm_num) 100 (1/10) (1/5) 1000
    (by norm_num [v2_days, pyInt])

/-- C9 counterexample: a non-numeric first token makes the run abort as a
caught parse failure, and the process then completes with status 0, not a
non-zero status: the `except ValueError` branch prints and returns
normally. -/
theorem parse_failure_exit_zero :
    run_simulation none (some 1) (some 1) (some 1) (some 1) = Outcome.parseFailure ∧
      exitStatus (run_simulation none (some 1) (some 1) (some 1) (some 1)) = 0 :=
  ⟨rfl, rfl⟩

/-- C9 amended: whenever any of the five reads is non-numeric the run aborts
as a recoverable parse failure with the user-visible error message and is
never retried, and it then completes with a zero (normal) completion
status. -/
theorem parse_failure_aborts_without_retry
    (S0q muq sigmaq Tq : Option ℚ) (simsq : Option ℤ)
    (h : S0q = none ∨ muq = none ∨ sigmaq = none ∨ Tq = none ∨ simsq = none) :
    run_simulation S0q muq sigmaq Tq simsq = Outcome.parseFailure ∧
      printsParseErrorMessage (run_simulation S0q muq sigmaq Tq simsq) = true ∧
      exitStatus (run_simulation S0q muq sigmaq Tq simsq) = 0 := by
  rcases S0q with _ | a <;> rcases muq with _ | b <;> rcases sigmaq with _ | c <;>
    rcases Tq with _ | d <;> rcases simsq with _ | e <;>
    simp [run_simulation, printsParseErrorMessage, exitStatus] at h ⊢

/-- Witness for C9 amended at a non-numeric volatility token. -/
theorem parse_failure_aborts_without_retry_witness :
    run_simulation (some 100) (some (1/10)) none (some 1) (some 1000)
        = Outcome.parseFailure ∧
      printsParseErrorMessage (run_simulation (some 100) (some (1/10)) none (some 1)
        (some 1000)) = true ∧
      exitStatus (run_simulation (some 100) (some (1/10)) none (some 1)
        (some 1000)) = 0 :=
  parse_failure_aborts_without_retry (some 100) (some (1/10)) none (some 1)
    (some 1000) (Or.inr (Or.inr (Or.inl rfl)))

end MonteCarlo
